/-
Verification of the XML/XSD validation tool `validate-prompts.py` against its
natural-language specification.

The Python program is embedded shallowly:
  * External effects (the filesystem, HTTP, the lxml parser and schema engine)
    are abstracted into an `Env` record of total functions; fallible library
    calls return `Except PyExc`.
  * Python exceptions are modelled by the inductive `PyExc`, whose
    constructors stand for the exception classes the program's `except`
    clauses discriminate on (`requests.RequestException`,
    `lxml.etree.XMLSyntaxError`, `lxml.etree.XMLSchemaParseError`, `OSError`,
    and a catch-all); an `except` clause is a test on the class predicate.
  * `print` is modelled by accumulating a `List String` of output lines.
  * `os.path.dirname` / `os.path.join` follow the posixpath source.
Function names follow the Python source where Lean allows it.
-/
import Mathlib

set_option maxRecDepth 10000

/-! ## String helpers (Python `str.startswith` / `str.endswith`) -/

/-- Python `s.startswith(p)`, via character lists so that proofs and
evaluation stay structural. -/
def strStartsWith (s p : String) : Bool :=
  p.toList.isPrefixOf s.toList

/-- Python `s.endswith(p)`. -/
def strEndsWith (s p : String) : Bool :=
  p.toList.isSuffixOf s.toList

/-- `posixpath.dirname`: everything up to the last `/`, with trailing slashes
stripped unless the head is empty or all slashes. -/
def dirname (p : String) : String :=
  let cs := p.toList
  let tl := cs.reverse.takeWhile (fun c => c != '/')
  let head := cs.take (cs.length - tl.length)
  if head.any (fun c => c != '/') then
    String.mk ((head.reverse.dropWhile (fun c => c == '/')).reverse)
  else
    String.mk head

/-- `posixpath.join` restricted to two components, as used by the program:
an absolute second component discards the first. -/
def joinPath (a b : String) : String :=
  if strStartsWith b "/" then b
  else if a = "" || strEndsWith a "/" then a ++ b
  else a ++ "/" ++ b

/-! ## Python exceptions -/

/-- Exception classes relevant to the program.  In lxml's hierarchy
`XMLSchemaParseError` derives from `XMLSchemaError`/`LxmlError`, NOT from
`XMLSyntaxError`, and it is not a `requests.RequestException` either. -/
inductive PyExc where
  | requestException : String → PyExc
  | xmlSyntaxError : String → PyExc
  | xmlSchemaParseError : String → PyExc
  | osError : String → PyExc
  | otherException : String → PyExc
deriving DecidableEq

/-- The `str(e)` the program interpolates into its error messages. -/
def PyExc.msg : PyExc → String
  | .requestException m => m
  | .xmlSyntaxError m => m
  | .xmlSchemaParseError m => m
  | .osError m => m
  | .otherException m => m

/-- `isinstance(e, requests.RequestException)`. -/
def PyExc.isRequestException : PyExc → Bool
  | .requestException _ => true
  | _ => false

/-- `isinstance(e, lxml.etree.XMLSyntaxError)`. -/
def PyExc.isXMLSyntaxError : PyExc → Bool
  | .xmlSyntaxError _ => true
  | _ => false

/-! ## Data model -/

/-- A parsed XML document (the `ElementTree` with its root element): the
root's attribute dictionary, keyed by Clark-notation names, plus an abstract
`content` standing for the rest of the element structure (which only the
schema engine inspects). -/
structure XmlTree where
  rootAttrib : List (String × String)
  content : Nat
deriving DecidableEq

/-- `dict.get` on the root's attribute dictionary. -/
def attribGet (t : XmlTree) (k : String) : Option String :=
  (t.rootAttrib.find? (fun kv => kv.1 == k)).map (fun kv => kv.2)

/-- A compiled `etree.XMLSchema`: the engine's structural-validation verdict
on a document, and the string the engine's `error_log` prints on failure. -/
structure Schema where
  validate : XmlTree → Bool
  error_log : String

/-- A `requests` response: final status code and body. -/
structure HttpResponse where
  statusCode : Nat
  content : String

/-- The external world: filesystem, network, and the lxml library calls.
Each field is one primitive the program invokes; fallible ones return
`Except PyExc`.  All are total functions (the interpreter-level possibility
of e.g. `os.listdir` raising is outside the model). -/
structure Env where
  /-- `requests.get(url, timeout=10)` — either a response or a
  `requests.RequestException` (connection error, timeout, ...). -/
  httpGet : String → Except PyExc HttpResponse
  /-- `etree.XML(content)` — parse schema bytes; raises `XMLSyntaxError` on
  malformed XML. -/
  parseXMLContent : String → Except PyExc XmlTree
  /-- `etree.parse(path)` — parse a file; raises `XMLSyntaxError`, `OSError`, ... -/
  parseFile : String → Except PyExc XmlTree
  /-- `etree.XMLSchema(tree)` — compile a parsed tree into a schema; raises
  `XMLSchemaParseError` if the tree is not a valid XSD. -/
  compileSchema : XmlTree → Except PyExc Schema
  /-- `os.path.exists`. -/
  pathExists : String → Bool
  /-- `os.path.isdir`. -/
  isDir : String → Bool
  /-- `os.listdir`, in the order the OS returns entries (unsorted). -/
  listdir : String → List String

/-! ## Console output -/

def COLOR_OK : String := "\x1b[92m"
def COLOR_ERROR : String := "\x1b[91m"
def COLOR_WARNING : String := "\x1b[93m"
def COLOR_RESET : String := "\x1b[0m"

def okLine (xml_path : String) : String :=
  COLOR_OK ++ "[OK] " ++ xml_path ++ " is valid." ++ COLOR_RESET

def koLine (xml_path : String) : String :=
  COLOR_ERROR ++ "[KO] " ++ xml_path ++ " is NOT valid." ++ COLOR_RESET

def fetchErrLine (url : String) (e : PyExc) : String :=
  COLOR_ERROR ++ "[ERROR] Failed to fetch XSD from " ++ url ++ ": " ++ e.msg ++ COLOR_RESET

def invalidXsdLine (url : String) (e : PyExc) : String :=
  COLOR_ERROR ++ "[ERROR] Invalid XSD format from " ++ url ++ ": " ++ e.msg ++ COLOR_RESET

def noXsdWarnLine (xml_path : String) : String :=
  COLOR_WARNING ++ "[WARNING] No XSD location found in " ++ xml_path ++ ". Skipping validation." ++ COLOR_RESET

def xsdNotFoundLine (xsd_path : String) : String :=
  COLOR_ERROR ++ "[ERROR] XSD file '" ++ xsd_path ++ "' not found." ++ COLOR_RESET

def failedValidateLine (xml_path : String) (e : PyExc) : String :=
  COLOR_ERROR ++ "[ERROR] Failed to validate " ++ xml_path ++ ": " ++ e.msg ++ COLOR_RESET

def notDirLine (directory : String) : String :=
  COLOR_ERROR ++ "[ERROR] '" ++ directory ++ "' is not a valid directory." ++ COLOR_RESET

/-! ## `fetch_xsd` -/

/-- The status codes for which `requests.Response.raise_for_status()`
raises: 4xx client errors and 5xx server errors. -/
def isHttpErrorStatus (n : Nat) : Bool :=
  400 ≤ n && n < 600

/-- `requests.Response.raise_for_status()`: raises an `HTTPError` (a
`RequestException`) for 4xx/5xx status codes. -/
def raise_for_status (r : HttpResponse) : Except PyExc Unit :=
  if isHttpErrorStatus r.statusCode then
    Except.error (PyExc.requestException ("HTTP error " ++ toString r.statusCode))
  else Except.ok ()

/-- The `try:` block of `fetch_xsd`. -/
def fetch_xsd_body (env : Env) (xsd_url : String) : Except PyExc Schema := do
  let response ← env.httpGet xsd_url
  let _ ← raise_for_status response
  let xsd_tree ← env.parseXMLContent response.content
  env.compileSchema xsd_tree

/-- `fetch_xsd(xsd_url)`: output lines, and either the Python return value
(`some` schema, or `none` for Python `None`) or an uncaught exception.  Only
`requests.RequestException` and `etree.XMLSyntaxError` are caught; any other
exception class escapes. -/
def fetch_xsd (env : Env) (xsd_url : String) :
    List String × Except PyExc (Option Schema) :=
  match fetch_xsd_body env xsd_url with
  | Except.ok s => ([], Except.ok (some s))
  | Except.error e =>
    if e.isRequestException then
      ([fetchErrLine xsd_url e], Except.ok none)
    else if e.isXMLSyntaxError then
      ([invalidXsdLine xsd_url e], Except.ok none)
    else
      ([], Except.error e)

/-! ## `validate_with_schema` -/

/-- `validate_with_schema(xml_tree, xsd_schema, xml_path)`. -/
def validate_with_schema (xml_tree : XmlTree) (xsd_schema : Schema)
    (xml_path : String) : List String × Bool :=
  if xsd_schema.validate xml_tree then
    ([okLine xml_path], true)
  else
    ([koLine xml_path, xsd_schema.error_log], false)

/-! ## `validate_xml` -/

def xsi_ns : String := "http://www.w3.org/2001/XMLSchema-instance"

/-- The Clark-notation attribute key
`{http://www.w3.org/2001/XMLSchema-instance}noNamespaceSchemaLocation`. -/
def schemaLocationKey : String :=
  "\x7b" ++ xsi_ns ++ "\x7dnoNamespaceSchemaLocation"

/-- Lines 76–83 of the source: the local-XSD tail of `validate_xml`
(`os.path.exists` check, `etree.parse`, `etree.XMLSchema`, then
`validate_with_schema`). -/
def validate_local_tail (env : Env) (xml_tree : XmlTree)
    (xsd_path xml_path : String) : List String × Except PyExc Bool :=
  if env.pathExists xsd_path then
    match env.parseFile xsd_path with
    | Except.error e => ([], Except.error e)
    | Except.ok xsd_tree =>
      match env.compileSchema xsd_tree with
      | Except.error e => ([], Except.error e)
      | Except.ok xsd_schema =>
        let r := validate_with_schema xml_tree xsd_schema xml_path
        (r.1, Except.ok r.2)
  else
    ([xsdNotFoundLine xsd_path], Except.ok false)

/-- The `else:` branch of `validate_xml` when no (truthy) override is given:
read `xsi:noNamespaceSchemaLocation`, warn if falsy, else dispatch on
URL vs. local path. -/
def resolve_without_override (env : Env) (xml_tree : XmlTree)
    (xml_path : String) : List String × Except PyExc Bool :=
  match attribGet xml_tree schemaLocationKey with
  | none => ([noXsdWarnLine xml_path], Except.ok false)
  | some xsd_location =>
    if xsd_location = "" then
      ([noXsdWarnLine xml_path], Except.ok false)
    else if strStartsWith xsd_location "http://" ||
            strStartsWith xsd_location "https://" then
      match fetch_xsd env xsd_location with
      | (out, Except.error e) => (out, Except.error e)
      | (out, Except.ok none) => (out, Except.ok false)
      | (out, Except.ok (some xsd_schema)) =>
        let r := validate_with_schema xml_tree xsd_schema xml_path
        (out ++ r.1, Except.ok r.2)
    else
      validate_local_tail env xml_tree
        (joinPath (dirname xml_path) xsd_location) xml_path

/-- Python truthiness of the `Optional[str]` argument `xsd_override`:
`None` and `""` are falsy. -/
def truthy : Option String → Bool
  | none => false
  | some s => !(s = "")

/-- The `try:` block of `validate_xml` (lines 48–83). -/
def validate_xml_body (env : Env) (xml_path : String)
    (xsd_override : Option String) : List String × Except PyExc Bool :=
  match env.parseFile xml_path with
  | Except.error e => ([], Except.error e)
  | Except.ok xml_tree =>
    if truthy xsd_override then
      validate_local_tail env xml_tree (xsd_override.getD "") xml_path
    else
      resolve_without_override env xml_tree xml_path

/-- `validate_xml(xml_path, xsd_override)`: the `try:` body wrapped in the
`except Exception` handler, which prints an error naming the file and
returns `False`. -/
def validate_xml (env : Env) (xml_path : String)
    (xsd_override : Option String) : List String × Bool :=
  match validate_xml_body env xml_path xsd_override with
  | (out, Except.ok b) => (out, b)
  | (out, Except.error e) => (out ++ [failedValidateLine xml_path e], false)

/-! ## `validate_xmls_in_directory` -/

/-- `validate_xmls_in_directory(directory, xsd_override)`: returns the printed
output (the Python function returns `None`). -/
def validate_xmls_in_directory (env : Env) (directory : String)
    (xsd_override : Option String) : List String :=
  if !env.isDir directory then
    [notDirLine directory]
  else
    let xml_files := (env.listdir directory).filter (fun f => strEndsWith f ".xml")
    if xml_files.isEmpty then
      []
    else
      (xml_files.map (fun f =>
        (validate_xml env (joinPath directory f) xsd_override).1)).flatten

/-! ## `main` -/

/-- Outcome of one process run: printed lines and the process exit status. -/
structure RunResult where
  output : List String
  exitCode : Nat
deriving DecidableEq

/-- `main()` after successful argument parsing: dispatch on `os.path.isdir`,
discarding the boolean results.  The script contains no `sys.exit` and every
exception is handled below `main` (the env primitives `isDir`/`listdir` are
modelled total), so the interpreter always exits with status 0. -/
def main_run (env : Env) (xml_path : String) (xsd : Option String) : RunResult :=
  if env.isDir xml_path then
    { output := validate_xmls_in_directory env xml_path xsd, exitCode := 0 }
  else
    { output := (validate_xml env xml_path xsd).1, exitCode := 0 }

/-! ## Status lines -/

/-- A pass/fail status line: starts with the colored `[OK] ` or `[KO] `
marker.  Warning and error lines start with `[WARNING] ` / `[ERROR] `
instead and are not status lines. -/
def isStatusLine (l : String) : Bool :=
  strStartsWith l (COLOR_OK ++ "[OK] ") || strStartsWith l (COLOR_ERROR ++ "[KO] ")


/-! ## Concrete environments and documents used by witnesses and
counterexamples -/

/-- A default environment in which every external primitive fails or is
empty; concrete scenarios override individual fields. -/
def baseEnv : Env :=
  { httpGet := fun _ => Except.error (PyExc.requestException "connection error")
    parseXMLContent := fun _ => Except.error (PyExc.xmlSyntaxError "syntax error")
    parseFile := fun _ => Except.error (PyExc.osError "No such file or directory")
    compileSchema := fun _ => Except.error (PyExc.xmlSchemaParseError "invalid schema")
    pathExists := fun _ => false
    isDir := fun _ => false
    listdir := fun _ => [] }

/-- A document whose root carries no attributes. -/
def treeNoAttr : XmlTree := { rootAttrib := [], content := 0 }

/-- A document whose root points at the local schema `b.xsd`. -/
def treeLocB : XmlTree := { rootAttrib := [(schemaLocationKey, "b.xsd")], content := 1 }

/-- A document whose root points at the local schema `s.xsd`. -/
def treeRelLoc : XmlTree := { rootAttrib := [(schemaLocationKey, "s.xsd")], content := 2 }

/-- A document whose root points at a remote schema URL. -/
def treeUrlLoc : XmlTree :=
  { rootAttrib := [(schemaLocationKey, "http://x.example/s.xsd")], content := 3 }

/-- A document whose root points at an absolute local schema path. -/
def treeAbsLoc : XmlTree := { rootAttrib := [(schemaLocationKey, "/etc/s.xsd")], content := 4 }

def treeDirDoc : XmlTree := { rootAttrib := [], content := 11 }

def treeDirDoc2 : XmlTree := { rootAttrib := [], content := 12 }

/-- A schema accepting every document. -/
def schemaAccept : Schema := { validate := fun _ => true, error_log := "" }

/-- A schema rejecting every document. -/
def schemaReject : Schema :=
  { validate := fun _ => false, error_log := "a.xml:3:0:ERROR:SCHEMASV: missing element" }

/-- A schema accepting exactly the documents with `content = 11`. -/
def schemaContent11 : Schema :=
  { validate := fun t => t.content == 11, error_log := "element mismatch" }

/-- Every file parses to an attribute-free document; everything else fails. -/
def envSkip : Env := { baseEnv with parseFile := fun _ => Except.ok treeNoAttr }

/-- `a.xml` points at `b.xsd`, which exists, parses, and compiles into a
schema that rejects the document: a genuine validation failure. -/
def envInvalidDoc : Env :=
  { baseEnv with
    parseFile := fun _ => Except.ok treeLocB
    pathExists := fun _ => true
    compileSchema := fun _ => Except.ok schemaReject }

/-- Documents carry the `b.xsd` location; no schema file exists. -/
def envAttrLocB : Env := { baseEnv with parseFile := fun _ => Except.ok treeLocB }

/-- The document points elsewhere (`b.xsd`), but the override file `o.xsd`
exists, parses, and compiles into an accepting schema. -/
def envOverride : Env :=
  { baseEnv with
    parseFile := fun p =>
      if p == "a.xml" then Except.ok treeLocB
      else if p == "o.xsd" then Except.ok treeNoAttr
      else Except.error (PyExc.osError "No such file or directory")
    pathExists := fun p => p == "o.xsd"
    compileSchema := fun _ => Except.ok schemaAccept }

/-- The HTTP GET succeeds with a body that parses as XML but fails XSD
compilation (lxml raises `XMLSchemaParseError` there). -/
def envBadRemoteXsd : Env :=
  { baseEnv with
    httpGet := fun _ => Except.ok { statusCode := 200, content := "<not-an-xsd/>" }
    parseXMLContent := fun _ => Except.ok treeNoAttr }

/-- `d/a.xml` embeds the relative location `s.xsd`; `d/s.xsd` exists, parses
and compiles into an accepting schema. -/
def envRelLocal : Env :=
  { baseEnv with
    parseFile := fun p =>
      if p == "d/a.xml" then Except.ok treeRelLoc
      else if p == "d/s.xsd" then Except.ok treeNoAttr
      else Except.error (PyExc.osError "No such file or directory")
    pathExists := fun p => p == "d/s.xsd"
    compileSchema := fun _ => Except.ok schemaAccept }

/-- Documents embed a remote schema URL; the network is down
(`requests.RequestException`). -/
def envRemoteDown : Env := { baseEnv with parseFile := fun _ => Except.ok treeUrlLoc }

/-- `x/a.xml` embeds the absolute location `/etc/s.xsd`, which exists,
parses and compiles into an accepting schema. -/
def envAbsLocal : Env :=
  { baseEnv with
    parseFile := fun p =>
      if p == "x/a.xml" then Except.ok treeAbsLoc
      else if p == "/etc/s.xsd" then Except.ok treeNoAttr
      else Except.error (PyExc.osError "No such file or directory")
    pathExists := fun p => p == "/etc/s.xsd"
    compileSchema := fun _ => Except.ok schemaAccept }

/-- A directory `d` listing two `.xml` entries and one other entry; the
override schema `s.xsd` accepts `d/a.xml` and rejects `d/b.xml`. -/
def envDir : Env :=
  { baseEnv with
    isDir := fun p => p == "d"
    listdir := fun _ => ["a.xml", "b.xml", "notes.txt"]
    parseFile := fun p =>
      if p == "d/a.xml" then Except.ok treeDirDoc
      else if p == "d/b.xml" then Except.ok treeDirDoc2
      else if p == "s.xsd" then Except.ok treeNoAttr
      else Except.error (PyExc.osError "No such file or directory")
    pathExists := fun p => p == "s.xsd"
    compileSchema := fun _ => Except.ok schemaContent11 }

/-! ## Helper lemmas -/

theorem bind_ok_eq {α β : Type} (a : α) (f : α → Except PyExc β) :
    (Except.ok a >>= f) = f a := rfl

theorem bind_error_eq {α β : Type} (e : PyExc) (f : α → Except PyExc β) :
    ((Except.error e : Except PyExc α) >>= f) = Except.error e := rfl

theorem strStartsWith_append (a b : String) : strStartsWith (a ++ b) a = true := by
  simp [strStartsWith, List.isPrefixOf_iff_prefix, String.toList]

theorem isStatusLine_okLine (p : String) : isStatusLine (okLine p) = true := by
  have h : okLine p = (COLOR_OK ++ "[OK] ") ++ (p ++ (" is valid." ++ COLOR_RESET)) := by
    simp [okLine, String.append_assoc]
  simp [isStatusLine, h, strStartsWith_append]

theorem isStatusLine_koLine (p : String) : isStatusLine (koLine p) = true := by
  have h : koLine p = (COLOR_ERROR ++ "[KO] ") ++ (p ++ (" is NOT valid." ++ COLOR_RESET)) := by
    simp [koLine, String.append_assoc]
  simp [isStatusLine, h, strStartsWith_append]

theorem count_flatten_ones (L : List String) (outs : String → List String)
    (h : ∀ f ∈ L, ((outs f).countP isStatusLine) = 1) :
    (((L.map outs).flatten).countP isStatusLine) = L.length := by
  induction L with
  | nil => simp
  | cons a as ih =>
    simp only [List.map_cons, List.flatten_cons, List.countP_append, List.length_cons]
    rw [h a (by simp), ih (fun f hf => h f (by simp [hf]))]
    omega

/-! ## C1 — `validate_with_schema` -/

/-- C1: `validate_with_schema` returns `true` iff the schema's structural
validation of the document succeeds; on success it prints exactly the one
line `[OK] <path> is valid.`, and on failure exactly the line
`[KO] <path> is NOT valid.` followed by the schema engine's full error log,
unfiltered and untruncated, returning `false`. -/
theorem validate_with_schema_claim (t : XmlTree) (s : Schema) (p : String) :
    (validate_with_schema t s p).2 = s.validate t ∧
    (validate_with_schema t s p).1 =
      (if s.validate t then [okLine p] else [koLine p, s.error_log]) := by
  unfold validate_with_schema
  cases h : s.validate t <;> simp [h]

/-! ## C2 — the "skipped" outcome -/

/-- C2 counterexample: a document with no `xsi:noNamespaceSchemaLocation`
attribute makes `validate_xml` return `false` — the very same value a
genuine validation failure returns — so the returned outcome is NOT
distinguishable from a validation failure; only the printed lines differ. -/
theorem skipped_return_counterexample :
    (validate_xml envSkip "a.xml" none).1 = [noXsdWarnLine "a.xml"] ∧
    (validate_xml envInvalidDoc "a.xml" none).1 =
      [koLine "a.xml", "a.xml:3:0:ERROR:SCHEMASV: missing element"] ∧
    (validate_xml envSkip "a.xml" none).2 = (validate_xml envInvalidDoc "a.xml" none).2 := by
  refine ⟨?_, ?_, ?_⟩ <;> decide

/-- C2 (amended): with no `--xsd` override, a document whose root lacks the
`xsi:noNamespaceSchemaLocation` attribute (or carries it empty) makes
`validate_xml` print exactly one `[WARNING]` line naming the file — no
`[OK]`/`[KO]` judgment — and return `False`, the same boolean a validation
failure returns; the skip is distinguishable only in the printed output. -/
theorem validate_xml_skipped_amended (env : Env) (p : String) (t : XmlTree)
    (hparse : env.parseFile p = Except.ok t)
    (hattr : attribGet t schemaLocationKey = none ∨
             attribGet t schemaLocationKey = some "") :
    validate_xml env p none = ([noXsdWarnLine p], false) := by
  unfold validate_xml validate_xml_body
  rw [hparse]
  rcases hattr with h | h <;> simp [truthy, resolve_without_override, h]

/-- C2 witness. -/
theorem validate_xml_skipped_amended_witness :
    validate_xml envSkip "a.xml" none = ([noXsdWarnLine "a.xml"], false) :=
  validate_xml_skipped_amended envSkip "a.xml" treeNoAttr rfl (Or.inl rfl)

/-! ## C3 — the `--xsd` override -/

/-- C3 counterexample: Python's `if xsd_override:` is a truthiness test, so
the provided override `""` is treated as absent and the embedded attribute
IS read: with the same empty-string override, a document without the
attribute is skipped while a document pointing at `b.xsd` triggers a lookup
of `b.xsd` — the behaviour depends on the attribute, refuting
"used unconditionally, no attribute read". -/
theorem override_empty_counterexample :
    (validate_xml envSkip "a.xml" (some "")).1 = [noXsdWarnLine "a.xml"] ∧
    (validate_xml envAttrLocB "a.xml" (some "")).1 = [xsdNotFoundLine "b.xsd"] ∧
    (validate_xml envSkip "a.xml" (some "")).1 ≠
      (validate_xml envAttrLocB "a.xml" (some "")).1 := by
  refine ⟨?_, ?_, ?_⟩ <;> decide

/-- C3 (amended): a NON-EMPTY `xsd_override` is used unconditionally as a
local file path — the computation is exactly the local-schema tail at that
path, which never reads the document's embedded schema location and never
touches the network (replacing `httpGet` changes nothing).  An empty-string
override is falsy in Python and treated as if no override were given. -/
theorem validate_xml_override_amended (env : Env)
    (g : String → Except PyExc HttpResponse) (xml_path p : String)
    (hp : p ≠ "") (t : XmlTree)
    (hparse : env.parseFile xml_path = Except.ok t) :
    validate_xml env xml_path (some p) =
      (match validate_local_tail env t p xml_path with
       | (out, Except.ok b) => (out, b)
       | (out, Except.error e) => (out ++ [failedValidateLine xml_path e], false)) ∧
    validate_xml { env with httpGet := g } xml_path (some p) =
      validate_xml env xml_path (some p) := by
  have ht : truthy (some p) = true := by simp [truthy, hp]
  constructor
  · unfold validate_xml validate_xml_body
    rw [hparse]
    simp only [ht, if_true, Option.getD_some]
  · unfold validate_xml validate_xml_body
    rw [show ({ env with httpGet := g } : Env).parseFile = env.parseFile from rfl, hparse]
    simp only [ht, if_true, Option.getD_some]
    rfl

/-- C3 witness: the document embeds `b.xsd`, yet with override `o.xsd` the
override's schema is used and the file validates. -/
theorem validate_xml_override_amended_witness :
    validate_xml envOverride "a.xml" (some "o.xsd") = ([okLine "a.xml"], true) := by
  have h := (validate_xml_override_amended envOverride
    (fun _ => Except.error (PyExc.requestException "down")) "a.xml" "o.xsd"
    (by decide) treeLocB rfl).1
  rw [h]
  decide

/-! ## C4 — `fetch_xsd` -/

/-- C4 counterexample: a 200 response whose body parses as XML but fails
XSD compilation makes `fetch_xsd` raise (lxml's `XMLSchemaParseError` is
caught by neither `except requests.RequestException` nor
`except etree.XMLSyntaxError`): no error message naming the URL is printed
and no `None` is returned — the exception propagates to the caller. -/
theorem fetch_xsd_raises_counterexample :
    fetch_xsd envBadRemoteXsd "http://h/s.xsd" =
      ([], Except.error (PyExc.xmlSchemaParseError "invalid schema")) := rfl

/-- C4 (amended): `fetch_xsd` yields a compiled schema on a 2xx/3xx GET
whose body is well-formed XML compiling as an XSD; a network error
(`RequestException`), a 4xx/5xx status, or a body that is not well-formed
XML (`XMLSyntaxError`) each print one error line identifying the URL and
the cause and return `None`; but a well-formed body that fails XSD
compilation raises `XMLSchemaParseError` through `fetch_xsd` to its caller,
with no URL-identifying message. -/
theorem fetch_xsd_amended (env : Env) (u : String) :
    (∀ e, env.httpGet u = Except.error e → e.isRequestException = true →
      fetch_xsd env u = ([fetchErrLine u e], Except.ok none)) ∧
    (∀ r, env.httpGet u = Except.ok r → isHttpErrorStatus r.statusCode = true →
      fetch_xsd env u =
        ([fetchErrLine u (PyExc.requestException ("HTTP error " ++ toString r.statusCode))],
         Except.ok none)) ∧
    (∀ r e, env.httpGet u = Except.ok r → isHttpErrorStatus r.statusCode = false →
      env.parseXMLContent r.content = Except.error e → e.isXMLSyntaxError = true →
      e.isRequestException = false →
      fetch_xsd env u = ([invalidXsdLine u e], Except.ok none)) ∧
    (∀ r t e, env.httpGet u = Except.ok r → isHttpErrorStatus r.statusCode = false →
      env.parseXMLContent r.content = Except.ok t →
      env.compileSchema t = Except.error e →
      e.isRequestException = false → e.isXMLSyntaxError = false →
      fetch_xsd env u = ([], Except.error e)) ∧
    (∀ r t s, env.httpGet u = Except.ok r → isHttpErrorStatus r.statusCode = false →
      env.parseXMLContent r.content = Except.ok t →
      env.compileSchema t = Except.ok s →
      fetch_xsd env u = ([], Except.ok (some s))) := by
  refine ⟨?_, ?_, ?_, ?_, ?_⟩
  · intro e h hc
    unfold fetch_xsd fetch_xsd_body
    rw [h]
    simp [bind_error_eq, hc]
  · intro r h hs
    unfold fetch_xsd fetch_xsd_body raise_for_status
    rw [h]
    simp [bind_ok_eq, bind_error_eq, hs, PyExc.isRequestException]
  · intro r e h hs hp hsyn hreq
    unfold fetch_xsd fetch_xsd_body raise_for_status
    rw [h]
    simp [bind_ok_eq, bind_error_eq, hs, hp, hsyn, hreq]
  · intro r t e h hs hp hc hreq hsyn
    unfold fetch_xsd fetch_xsd_body raise_for_status
    rw [h]
    simp [bind_ok_eq, bind_error_eq, hs, hp, hc, hreq, hsyn]
  · intro r t s h hs hp hc
    unfold fetch_xsd fetch_xsd_body raise_for_status
    rw [h]
    simp [bind_ok_eq, bind_error_eq, hs, hp, hc]

/-- C4 witness: the network is down, so `fetch_xsd` prints the fetch error
naming the URL and returns `None`. -/
theorem fetch_xsd_amended_witness :
    fetch_xsd baseEnv "http://h/s.xsd" =
      ([fetchErrLine "http://h/s.xsd" (PyExc.requestException "connection error")],
       Except.ok none) :=
  (fetch_xsd_amended baseEnv "http://h/s.xsd").1
    (PyExc.requestException "connection error") rfl rfl

/-! ## C5 — local (non-URL) schema locations -/

/-- C5: with no override, an embedded schema location that is not an
`http://`/`https://` URL is resolved by joining it onto the directory of the
XML file; if the resolved file does not exist the program prints the
`[ERROR] XSD file ... not found.` line and returns `false`, otherwise it
parses and compiles that file as an XSD and validates the document against
it (the last conjunct characterises the whole local tail, including
propagation of parse/compile exceptions to the catch-all handler). -/
theorem validate_xml_local_relative (env : Env) (xml_path loc : String) (t : XmlTree)
    (hparse : env.parseFile xml_path = Except.ok t)
    (hattr : attribGet t schemaLocationKey = some loc)
    (hne : loc ≠ "")
    (hh1 : strStartsWith loc "http://" = false)
    (hh2 : strStartsWith loc "https://" = false) :
    (env.pathExists (joinPath (dirname xml_path) loc) = false →
      validate_xml env xml_path none =
        ([xsdNotFoundLine (joinPath (dirname xml_path) loc)], false)) ∧
    (∀ xsd_tree sch,
      env.pathExists (joinPath (dirname xml_path) loc) = true →
      env.parseFile (joinPath (dirname xml_path) loc) = Except.ok xsd_tree →
      env.compileSchema xsd_tree = Except.ok sch →
      validate_xml env xml_path none = validate_with_schema t sch xml_path) ∧
    validate_xml env xml_path none =
      (match validate_local_tail env t (joinPath (dirname xml_path) loc) xml_path with
       | (out, Except.ok b) => (out, b)
       | (out, Except.error e) => (out ++ [failedValidateLine xml_path e], false)) := by
  have key : validate_xml env xml_path none =
      (match validate_local_tail env t (joinPath (dirname xml_path) loc) xml_path with
       | (out, Except.ok b) => (out, b)
       | (out, Except.error e) => (out ++ [failedValidateLine xml_path e], false)) := by
    unfold validate_xml validate_xml_body resolve_without_override
    rw [hparse]
    simp only [truthy, hattr, hne, hh1, hh2, Bool.or_self, Bool.false_eq_true,
      if_false, ite_false]
  refine ⟨?_, ?_, key⟩
  · intro hex
    rw [key]
    unfold validate_local_tail
    simp [hex]
  · intro xsd_tree sch hex hpt hcs
    rw [key]
    unfold validate_local_tail
    simp [hex, hpt, hcs]

/-- C5 witness: `d/a.xml` embeds `s.xsd`, resolved to `d/s.xsd`, which
exists and compiles into a schema accepting the document. -/
theorem validate_xml_local_relative_witness :
    validate_xml envRelLocal "d/a.xml" none = ([okLine "d/a.xml"], true) := by
  have h := (validate_xml_local_relative envRelLocal "d/a.xml" "s.xsd" treeRelLoc
    rfl (by decide) (by decide) (by decide) (by decide)).2.1 treeNoAttr schemaAccept
    (by decide) rfl rfl
  rw [h]
  decide

/-! ## C7 — remote schema locations -/

/-- C7: with no override, an embedded `http://`/`https://` location delegates
to `fetch_xsd`; if the fetch yields `None` the file is reported failed with
exactly the fetch's own output, if the fetch raises the catch-all handler
reports the file failed, and the result is identical for any environment
agreeing on network and parsing — in particular for any state of the local
filesystem (`pathExists`), so no local fallback schema is ever consulted. -/
theorem validate_xml_remote_claim (env : Env) (xml_path loc : String) (t : XmlTree)
    (hparse : env.parseFile xml_path = Except.ok t)
    (hattr : attribGet t schemaLocationKey = some loc)
    (hurl : (strStartsWith loc "http://" || strStartsWith loc "https://") = true) :
    (∀ out, fetch_xsd env loc = (out, Except.ok none) →
      validate_xml env xml_path none = (out, false)) ∧
    (∀ out e, fetch_xsd env loc = (out, Except.error e) →
      validate_xml env xml_path none = (out ++ [failedValidateLine xml_path e], false)) ∧
    (∀ env₂ : Env, env₂.httpGet = env.httpGet →
      env₂.parseXMLContent = env.parseXMLContent →
      env₂.parseFile = env.parseFile → env₂.compileSchema = env.compileSchema →
      validate_xml env₂ xml_path none = validate_xml env xml_path none) := by
  have hne : loc ≠ "" := by
    intro h
    subst h
    exact absurd hurl (by decide)
  have key : ∀ env₂ : Env, env₂.httpGet = env.httpGet →
      env₂.parseXMLContent = env.parseXMLContent →
      env₂.parseFile = env.parseFile → env₂.compileSchema = env.compileSchema →
      validate_xml env₂ xml_path none =
        (match fetch_xsd env loc with
         | (out, Except.ok none) => (out, false)
         | (out, Except.ok (some sch)) =>
             (out ++ (validate_with_schema t sch xml_path).1,
              (validate_with_schema t sch xml_path).2)
         | (out, Except.error e) => (out ++ [failedValidateLine xml_path e], false)) := by
    intro env₂ hg hpx hpf hcs
    have hfe : fetch_xsd env₂ loc = fetch_xsd env loc := by
      unfold fetch_xsd fetch_xsd_body
      rw [hg, hpx, hcs]
    unfold validate_xml validate_xml_body resolve_without_override
    rw [hpf, hparse]
    simp only [truthy, hattr, hne, hurl, Bool.false_eq_true, if_false, ite_false,
      if_true, ite_true]
    rw [hfe]
    rcases hf : fetch_xsd env loc with ⟨out, r⟩
    rcases r with e | s
    · simp
    · rcases s with _ | sch <;> simp
  refine ⟨?_, ?_, ?_⟩
  · intro out h
    rw [key env rfl rfl rfl rfl, h]
  · intro out e h
    rw [key env rfl rfl rfl rfl, h]
  · intro env₂ h1 h2 h3 h4
    rw [key env₂ h1 h2 h3 h4, key env rfl rfl rfl rfl]

/-- C7 witness: the network is down, so the fetch error is reported and the
file with the remote schema URL is treated as failed. -/
theorem validate_xml_remote_claim_witness :
    validate_xml envRemoteDown "a.xml" none =
      ([fetchErrLine "http://x.example/s.xsd" (PyExc.requestException "connection error")],
       false) :=
  (validate_xml_remote_claim envRemoteDown "a.xml" "http://x.example/s.xsd" treeUrlLoc
    rfl (by decide) (by decide)).1 _ rfl

/-! ## C8 — the catch-all handler -/

/-- C8: any exception in the `try:` body of `validate_xml` — in particular a
parse error on the XML document itself — is caught, reported with an
`[ERROR] Failed to validate <file>` line naming the file, and turned into a
`false` return; `validate_xml` is a total function into output×bool, so no
exception reaches its caller. -/
theorem validate_xml_catch_claim (env : Env) (xml_path : String) (ov : Option String) :
    (∀ e, env.parseFile xml_path = Except.error e →
      validate_xml env xml_path ov = ([failedValidateLine xml_path e], false)) ∧
    (∀ out e, validate_xml_body env xml_path ov = (out, Except.error e) →
      validate_xml env xml_path ov = (out ++ [failedValidateLine xml_path e], false) ∧
      (validate_xml env xml_path ov).2 = false) := by
  constructor
  · intro e h
    unfold validate_xml validate_xml_body
    rw [h]
    simp
  · intro out e h
    unfold validate_xml
    rw [h]
    simp

/-- C8 witness: a missing/unparsable XML file is reported and returns false. -/
theorem validate_xml_catch_claim_witness :
    validate_xml baseEnv "missing.xml" none =
      ([failedValidateLine "missing.xml" (PyExc.osError "No such file or directory")],
       false) :=
  (validate_xml_catch_claim baseEnv "missing.xml" none).1 _ rfl

/-! ## C9 — exit status -/

/-- C9: after a syntactically valid command line, `main` dispatches on
`os.path.isdir` and discards the boolean results; the script has no
`sys.exit` and handles every exception below `main`, so the process always
exits with status 0 — outcomes are communicated only through the printed
output. -/
theorem main_exit_zero_claim (env : Env) (xml_path : String) (xsd : Option String) :
    (main_run env xml_path xsd).exitCode = 0 ∧
    (main_run env xml_path xsd).output =
      (if env.isDir xml_path then validate_xmls_in_directory env xml_path xsd
       else (validate_xml env xml_path xsd).1) := by
  unfold main_run
  cases h : env.isDir xml_path <;> simp [h]

/-! ## C10 — absolute local schema locations -/

/-- C10: an embedded schema location that is an absolute path (starts with
`/`, not a URL, no override) survives `os.path.join` unchanged — the XML
file's directory is discarded, the same schema file is used wherever the
XML file lives, and validation proceeds on exactly that absolute path. -/
theorem absolute_schema_location_claim (env : Env) (xml_path loc : String) (t : XmlTree)
    (hparse : env.parseFile xml_path = Except.ok t)
    (hattr : attribGet t schemaLocationKey = some loc)
    (habs : strStartsWith loc "/" = true)
    (hh1 : strStartsWith loc "http://" = false)
    (hh2 : strStartsWith loc "https://" = false) :
    joinPath (dirname xml_path) loc = loc ∧
    (∀ other : String, joinPath (dirname other) loc = loc) ∧
    validate_xml env xml_path none =
      (match validate_local_tail env t loc xml_path with
       | (out, Except.ok b) => (out, b)
       | (out, Except.error e) => (out ++ [failedValidateLine xml_path e], false)) := by
  have hj : ∀ a : String, joinPath a loc = loc := by
    intro a
    unfold joinPath
    rw [habs]
    simp
  have hne : loc ≠ "" := by
    intro h
    subst h
    exact absurd habs (by decide)
  refine ⟨hj _, fun o => hj _, ?_⟩
  unfold validate_xml validate_xml_body resolve_without_override
  rw [hparse]
  simp only [truthy, hattr, hne, hh1, hh2, Bool.or_self, Bool.false_eq_true,
    if_false, ite_false, hj]

/-- C10 witness: `x/a.xml` embeds `/etc/s.xsd`; the directory `x` is
discarded and the document validates against `/etc/s.xsd`. -/
theorem absolute_schema_location_claim_witness :
    joinPath (dirname "x/a.xml") "/etc/s.xsd" = "/etc/s.xsd" ∧
    validate_xml envAbsLocal "x/a.xml" none = ([okLine "x/a.xml"], true) := by
  have h := absolute_schema_location_claim envAbsLocal "x/a.xml" "/etc/s.xsd" treeAbsLoc
    rfl (by decide) (by decide) (by decide) (by decide)
  refine ⟨h.1, ?_⟩
  rw [h.2.2]
  decide

/-! ## C6 — `validate_xmls_in_directory` -/

/-- When the argument is a directory, the walker's output is exactly the
concatenation of the per-file outputs over the `.xml`-suffixed entries, in
listing order (the explicit empty-list early return produces the same empty
output). -/
theorem dir_output_flatten (env : Env) (d : String) (ov : Option String)
    (h : env.isDir d = true) :
    validate_xmls_in_directory env d ov =
      (((env.listdir d).filter (fun f => strEndsWith f ".xml")).map
        (fun f => (validate_xml env (joinPath d f) ov).1)).flatten := by
  unfold validate_xmls_in_directory
  rw [h]
  cases hxe : (env.listdir d).filter (fun f => strEndsWith f ".xml") with
  | nil => simp [hxe]
  | cons a as => simp [hxe]

/-- With a usable non-empty override schema whose error log is not itself a
status line, a file that parses contributes exactly one `[OK]`/`[KO]`
status line, whichever way validation goes. -/
theorem countP_status_validate_override (env : Env) (p xp : String) (t s : XmlTree)
    (sch : Schema) (hp : p ≠ "") (hex : env.pathExists p = true)
    (hps : env.parseFile p = Except.ok s)
    (hcs : env.compileSchema s = Except.ok sch)
    (hlog : isStatusLine sch.error_log = false)
    (ht : env.parseFile xp = Except.ok t) :
    ((validate_xml env xp (some p)).1.countP isStatusLine) = 1 := by
  unfold validate_xml validate_xml_body validate_local_tail
  rw [ht]
  simp only [truthy, hp, Option.getD_some, decide_not, Bool.not_eq_true',
    decide_eq_false_iff_not, ne_eq, not_false_eq_true, ite_true, if_true]
  rw [hex]
  simp only [hps, hcs, if_true, ite_true]
  unfold validate_with_schema
  cases hv : sch.validate t <;>
    simp [hv, List.countP_cons, isStatusLine_okLine, isStatusLine_koLine, hlog]

/-- C6: if the argument is not a directory, exactly the error line is
printed and nothing is processed; if it is one, the entries whose names end
in `.xml` are each validated independently, in listing order, with output
the concatenation of the per-file outputs (empty when there is no `.xml`
entry); and when every such file parses and a usable override schema is
given, the run prints exactly one status line per `.xml` file — a failing
file does not stop the rest. -/
theorem validate_xmls_in_directory_claim (env : Env) (d : String) (ov : Option String) :
    (env.isDir d = false → validate_xmls_in_directory env d ov = [notDirLine d]) ∧
    (env.isDir d = true →
      validate_xmls_in_directory env d ov =
        (((env.listdir d).filter (fun f => strEndsWith f ".xml")).map
          (fun f => (validate_xml env (joinPath d f) ov).1)).flatten) ∧
    (∀ p s sch, env.isDir d = true → ov = some p → p ≠ "" →
      env.pathExists p = true → env.parseFile p = Except.ok s →
      env.compileSchema s = Except.ok sch → isStatusLine sch.error_log = false →
      (∀ f ∈ (env.listdir d).filter (fun f => strEndsWith f ".xml"),
        ∃ t, env.parseFile (joinPath d f) = Except.ok t) →
      ((validate_xmls_in_directory env d ov).countP isStatusLine) =
        ((env.listdir d).filter (fun f => strEndsWith f ".xml")).length) := by
  refine ⟨?_, dir_output_flatten env d ov, ?_⟩
  · intro h
    unfold validate_xmls_in_directory
    rw [h]
    simp
  · intro p s sch hdir hov hp hex hps hcs hlog hfiles
    subst hov
    rw [dir_output_flatten env d (some p) hdir]
    exact count_flatten_ones _ _ (fun f hf => by
      obtain ⟨t, ht⟩ := hfiles f hf
      exact countP_status_validate_override env p (joinPath d f) t s sch hp hex hps
        hcs hlog ht)

/-- C6 witness: directory `d` lists `a.xml`, `b.xml`, `notes.txt`; with
override `s.xsd` the schema accepts `d/a.xml` and rejects `d/b.xml`, and
the run emits exactly 2 status lines. -/
theorem validate_xmls_in_directory_claim_witness :
    (validate_xmls_in_directory envDir "d" (some "s.xsd")).countP isStatusLine = 2 := by
  have hlen : ((envDir.listdir "d").filter (fun f => strEndsWith f ".xml")).length = 2 := by
    decide
  have h := (validate_xmls_in_directory_claim envDir "d" (some "s.xsd")).2.2
    "s.xsd" treeNoAttr schemaContent11 (by decide) rfl (by decide) (by decide) rfl rfl
    (by decide) ?_
  · rw [h, hlen]
  · intro f hf
    rw [show (envDir.listdir "d").filter (fun f => strEndsWith f ".xml") =
      ["a.xml", "b.xml"] from by decide] at hf
    simp only [List.mem_cons, List.not_mem_nil, or_false] at hf
    rcases hf with rfl | rfl
    · exact ⟨treeDirDoc, rfl⟩
    · exact ⟨treeDirDoc2, rfl⟩
